import Mathlib

/-!
# Verification of the dom-pan-zoom viewport geometry engine

A shallow embedding of `src/core/domPanZoom.js` (class `domPanZoom`):
the pan/zoom state, the sanitize/clamp zoom logic, the bounds clamping of
`setPosition`, the pan-percentage conversions, the wheel and pinch zoom
paths, and the pointer-event cache of the pinch gesture tracker.

JavaScript numbers are modelled as rationals (`ℚ`); the places where the
source can produce non-finite values (division by a zero dimension) are
modelled separately with an explicit `JSNum` type carrying `nan` and the
two infinities, and the strict-mode `TypeError` thrown by an assignment
to a `const` binding is modelled with `Except`.
-/

namespace DomPanZoom

/-- Measured sizes of the wrapper (viewport) and container (content)
elements: `clientWidth`/`clientHeight` of each, read on demand. -/
structure Metrics where
  wrapperWidth : ℚ
  wrapperHeight : ℚ
  containerWidth : ℚ
  containerHeight : ℚ
  deriving DecidableEq, Repr

/-- The subset of the resolved options object that the geometry engine
reads: `bounds` (enabled or not), `minZoom`, `maxZoom`, `panStep`,
`zoomStep`, `zoomSpeedWheel`, `zoomSpeedPinch`. -/
structure Config where
  boundsEnabled : Bool
  minZoom : ℚ
  maxZoom : ℚ
  panStep : ℚ
  zoomStep : ℚ
  zoomSpeedWheel : ℚ
  zoomSpeedPinch : ℚ
  deriving DecidableEq, Repr

/-- The mutable core state `(this.zoom, this.x, this.y)`. -/
structure PZState where
  zoom : ℚ
  x : ℚ
  y : ℚ
  deriving DecidableEq, Repr

/-- `upperOffsetX = (containerWidth / 2) * (this.zoom - 1)`
(`setPosition`, line 433). -/
def upperOffsetX (m : Metrics) (s : PZState) : ℚ :=
  (m.containerWidth / 2) * (s.zoom - 1)

/-- `lowerOffsetX = upperOffsetX * -1 + wrapperWidth - containerWidth`
(`setPosition`, line 434). -/
def lowerOffsetX (m : Metrics) (s : PZState) : ℚ :=
  upperOffsetX m s * (-1) + m.wrapperWidth - m.containerWidth

/-- `upperOffsetY = (containerHeight / 2) * (this.zoom - 1)`
(`setPosition`, line 444). -/
def upperOffsetY (m : Metrics) (s : PZState) : ℚ :=
  (m.containerHeight / 2) * (s.zoom - 1)

/-- `lowerOffsetY = upperOffsetY * -1 + wrapperHeight - containerHeight`
(`setPosition`, line 445). -/
def lowerOffsetY (m : Metrics) (s : PZState) : ℚ :=
  upperOffsetY m s * (-1) + m.wrapperHeight - m.containerHeight

/-- Embedding of `setPosition` (lines 419–473), restricted to its effect on
the `(zoom, x, y)` state: when `options.bounds` is enabled, each axis offset
is clamped.  On the x axis: if `containerWidth * zoom < wrapperWidth` the
source runs the two guarded assignments
`this.x < upperOffsetX && (this.x = upperOffsetX)` then
`this.x > lowerOffsetX && (this.x = lowerOffsetX)`;
otherwise `this.x = Math.min(this.x, upperOffsetX)` then
`this.x = Math.max(this.x, lowerOffsetX)`.  The y axis is symmetric.
The transform string and the `onChange` callback have no effect on the
state and are omitted. -/
def setPosition (c : Config) (m : Metrics) (s : PZState) : PZState :=
  if c.boundsEnabled then
    let x :=
      if m.containerWidth * s.zoom < m.wrapperWidth then
        let x1 := if s.x < upperOffsetX m s then upperOffsetX m s else s.x
        if x1 > lowerOffsetX m s then lowerOffsetX m s else x1
      else
        max (min s.x (upperOffsetX m s)) (lowerOffsetX m s)
    let y :=
      if m.containerHeight * s.zoom < m.wrapperHeight then
        let y1 := if s.y < upperOffsetY m s then upperOffsetY m s else s.y
        if y1 > lowerOffsetY m s then lowerOffsetY m s else y1
      else
        max (min s.y (upperOffsetY m s)) (lowerOffsetY m s)
    { s with x := x, y := y }
  else
    s

/-- Embedding of the numeric path of `sanitizeZoom` (lines 476–512): raise
to `minZoom`, then cap at `maxZoom`, by two sequential `if` statements. -/
def sanitizeZoom (c : Config) (zoom : ℚ) : ℚ :=
  let z1 := if zoom < c.minZoom then c.minZoom else zoom
  if z1 > c.maxZoom then c.maxZoom else z1

/-- Embedding of `getEventOffsetToCenter` (lines 364–392) when called with
no event (as `zoomTo` does): `offsetToCenter` stays `(0, 0)` and the result
is `(this.x - centerX, this.y - centerY)` with
`centerX = (wrapperWidth - containerWidth) * 0.5` (y symmetric). -/
def getEventOffsetToCenterNoEvent (m : Metrics) (s : PZState) : ℚ × ℚ :=
  let diffX := m.wrapperWidth - m.containerWidth
  let diffY := m.wrapperHeight - m.containerHeight
  (s.x - diffX * (1/2), s.y - diffY * (1/2))

/-- Embedding of `adjustPositionByZoom` (lines 571–587): caps the anchor
offset at `± containerSize * 0.5 * currentZoom` on each axis via the
source's guarded `Math.min`/`Math.max` assignments, then translates the
state by `offset * zoomGrowth` where
`zoomGrowth = (zoom - currentZoom) / currentZoom`. -/
def adjustPositionByZoom (m : Metrics) (s : PZState) (zoom x y : ℚ) : PZState :=
  let currentZoom := s.zoom
  let zoomGrowth := (zoom - currentZoom) / currentZoom
  let maxOffsetX := m.containerWidth * (1/2) * currentZoom
  let maxOffsetY := m.containerHeight * (1/2) * currentZoom
  let x1 := if x > maxOffsetX then min x maxOffsetX else x
  let x2 := if x1 < maxOffsetX * (-1) then max x1 (maxOffsetX * (-1)) else x1
  let y1 := if y > maxOffsetY then min y maxOffsetY else y
  let y2 := if y1 < maxOffsetY * (-1) then max y1 (maxOffsetY * (-1)) else y1
  { s with x := s.x + x2 * zoomGrowth, y := s.y + y2 * zoomGrowth }

/-- Embedding of `zoomTo` (lines 520–537) for a numeric zoom request:
sanitize, anchor at the viewport center via `getEventOffsetToCenter()` and
`adjustPositionByZoom`, store the new zoom, then `setPosition`. -/
def zoomTo (c : Config) (m : Metrics) (s : PZState) (z : ℚ) : PZState :=
  let zoom := sanitizeZoom c z
  let off := getEventOffsetToCenterNoEvent m s
  let s1 := adjustPositionByZoom m s zoom off.1 off.2
  setPosition c m { s1 with zoom := zoom }

/-- `Math.sign` on a rational: `-1`, `0` or `1`. -/
def jsSign (q : ℚ) : ℚ :=
  if q < 0 then -1 else if 0 < q then 1 else 0

/-- The wheel speed factor
`1 - sign * Math.min(0.25, Math.abs((speed * delta) / 128))`
(`mouseWheelEvent`, lines 222–223). -/
def deltaAdjustedSpeed (speed delta : ℚ) : ℚ :=
  1 - jsSign delta * min (1/4) |speed * delta / 128|

/-- Embedding of `mouseWheelEvent` (lines 209–236): scale `deltaY` by 100
when `deltaMode > 0`, compute the adjusted speed factor, sanitize
`zoom * factor`, anchor at the cursor via `adjustPositionByZoom` (the
cursor's offset-to-center, which depends on the DOM offset chain, is
passed in as `ox, oy`), store the zoom and `setPosition`. -/
def mouseWheelEvent (c : Config) (m : Metrics) (s : PZState)
    (deltaY : ℚ) (deltaMode : ℕ) (ox oy : ℚ) : PZState :=
  let delta := if deltaMode > 0 then deltaY * 100 else deltaY
  let nextZoom := sanitizeZoom c (s.zoom * deltaAdjustedSpeed c.zoomSpeedWheel delta)
  let s1 := adjustPositionByZoom m s nextZoom ox oy
  setPosition c m { s1 with zoom := nextZoom }

/-- A pointer event as the pinch tracker reads it: its identity and its
page/client coordinates. -/
structure PointerEvt where
  pointerId : ℕ
  pageX : ℚ
  pageY : ℚ
  clientX : ℚ
  clientY : ℚ
  deriving DecidableEq, Repr

/-- The record built by `getTouchEventsCenter`. -/
structure TouchCenter where
  pageX : ℚ
  pageY : ℚ
  clientX : ℚ
  clientY : ℚ
  deriving DecidableEq, Repr

/-- Embedding of `getTouchEventsCenter` (lines 400–407).  The source's
`pageY` field averages `ev1.pageY` with `ev2.pageX` (not `ev2.pageY`);
this field is embedded exactly as written. -/
def getTouchEventsCenter (ev1 ev2 : PointerEvt) : TouchCenter :=
  { pageX := (ev1.pageX + ev2.pageX) / 2
    pageY := (ev1.pageY + ev2.pageX) / 2
    clientX := (ev1.clientX + ev2.clientX) / 2
    clientY := (ev1.clientY + ev2.clientY) / 2 }

/-- Embedding of `getTouchEventsDistance` (lines 395–397), exactly as
written in the source:
`Math.abs(Math.hypot(ev1.pageX - ev1.pageX, ev1.pageY - ev2.pageY))`,
with `Math.hypot` as the real square root of the sum of squares. -/
noncomputable def getTouchEventsDistanceR (ev1 ev2 : PointerEvt) : ℝ :=
  |Real.sqrt (((ev1.pageX : ℝ) - (ev1.pageX : ℝ)) ^ 2 +
    ((ev1.pageY : ℝ) - (ev2.pageY : ℝ)) ^ 2)|

/-- The rational value of `getTouchEventsDistance`: because the first
argument of the source's `Math.hypot` is `ev1.pageX - ev1.pageX = 0`, the
distance is exactly `|ev1.pageY - ev2.pageY|`
(`getTouchEventsDistanceR_eq` proves the two agree), so the gesture
machine can carry it as a rational. -/
def getTouchEventsDistanceQ (ev1 ev2 : PointerEvt) : ℚ :=
  |ev1.pageY - ev2.pageY|

/-- The pinch-tracking state: the core `(zoom, x, y)` plus `this.evCache`,
`this.blockPan`, the `zoomCache`/`xCache`/`yCache` snapshots, the
`pinchDiffCache` baseline distance and the `touchEventsCenterCache`. -/
structure GestureState where
  core : PZState
  evCache : List PointerEvt
  blockPan : Bool
  zoomCache : ℚ
  xCache : ℚ
  yCache : ℚ
  pinchDiffCache : ℚ
  centerCache : TouchCenter
  deriving DecidableEq, Repr

/-- Embedding of `pointerDownEvent` (lines 243–260): push the event onto
`evCache` and refresh `zoomCache`/`xCache`/`yCache`; when the cache then
holds exactly two events, set `blockPan` and capture the pinch distance
and center baselines from `evCache[0]` and `evCache[1]`. -/
def pointerDownEvent (g : GestureState) (ev : PointerEvt) : GestureState :=
  let cache := g.evCache ++ [ev]
  let g1 := { g with evCache := cache, zoomCache := g.core.zoom,
                     xCache := g.core.x, yCache := g.core.y }
  match cache with
  | [e0, e1] =>
    { g1 with blockPan := true
              pinchDiffCache := getTouchEventsDistanceQ e0 e1
              centerCache := getTouchEventsCenter e0 e1 }
  | _ => g1

/-- The splice loop of `pointerUpEvent` (lines 324–329): remove the first
cache entry whose `pointerId` matches. -/
def spliceFirst : List PointerEvt → ℕ → List PointerEvt
  | [], _ => []
  | e :: rest, pid => if e.pointerId = pid then rest else e :: spliceFirst rest pid

/-- Embedding of `pointerUpEvent` (lines 323–334), the handler shared by
`pointerup`, `pointercancel`, `pointerout` and `pointerleave`: remove the
matching cache entry, then clear `blockPan` when fewer than two entries
remain. -/
def pointerUpEvent (g : GestureState) (ev : PointerEvt) : GestureState :=
  let cache := spliceFirst g.evCache ev.pointerId
  if cache.length < 2 then { g with evCache := cache, blockPan := false }
  else { g with evCache := cache }

/-- The update loop of `pointerMoveEvent` (lines 267–272): replace the
first cache entry with matching `pointerId` by the new event. -/
def updateFirst : List PointerEvt → PointerEvt → List PointerEvt
  | [], _ => []
  | e :: rest, ev =>
    if ev.pointerId = e.pointerId then ev :: rest else e :: updateFirst rest ev

/-- Embedding of `pointerMoveEvent` (lines 266–317): update the cache in
place; when it holds exactly two events, compute the pinch zoom from the
distance delta against the baseline, anchor via `adjustPositionByZoom`
(the synthetic event's offset-to-center depends on the DOM offset chain
and is passed in as `ox, oy`), then overwrite `x`/`y` with the cached
position translated by the pinch-center movement (the source assigns
`this.x = this.xCache + touchEventsCenterDiff.x` after the adjust call,
discarding the adjusted offsets), set the zoom and run `setPosition`. -/
def pointerMoveEvent (c : Config) (m : Metrics) (g : GestureState)
    (ev : PointerEvt) (ox oy : ℚ) : GestureState :=
  let cache := updateFirst g.evCache ev
  let g1 := { g with evCache := cache }
  match cache with
  | [e0, e1] =>
    let pinchDiff := getTouchEventsDistanceQ e0 e1 - g.pinchDiffCache
    let pinchDiffPercent := pinchDiff / m.containerWidth * c.zoomSpeedPinch + 1
    let nextZoom := sanitizeZoom c (g.zoomCache * pinchDiffPercent)
    let center := getTouchEventsCenter e0 e1
    let s1 := adjustPositionByZoom m g1.core nextZoom ox oy
    let s2 := { s1 with x := g.xCache + (center.clientX - g.centerCache.clientX)
                        y := g.yCache + (center.clientY - g.centerCache.clientY)
                        zoom := nextZoom }
    { g1 with core := setPosition c m s2 }
  | _ => g1

/-- The `bounds` option: `false`, `'contain'` or `'cover'`. -/
inductive BoundsMode where
  | off
  | contain
  | cover
  deriving DecidableEq, Repr

/-- The `minZoom` adjustment performed by `init` (lines 90–112) when
`options.bounds` is truthy, for non-degenerate (positive) dimensions:
raise `minZoom` to `Math.max(minZoom, minZoomX, minZoomY)` for `'cover'`
and to `Math.max(minZoom, Math.min(minZoomX, minZoomY))` otherwise, where
`minZoomX = wrapperWidth / containerWidth` and
`minZoomY = wrapperHeight / containerHeight`. -/
def adjustedMinZoom (mode : BoundsMode) (minZoom : ℚ) (m : Metrics) : ℚ :=
  match mode with
  | .off => minZoom
  | .cover => max (max minZoom (m.wrapperWidth / m.containerWidth))
      (m.wrapperHeight / m.containerHeight)
  | .contain => max minZoom
      (min (m.wrapperWidth / m.containerWidth) (m.wrapperHeight / m.containerHeight))

/-- The zoom stored by `init` (line 115) for a numeric `initialZoom`:
`sanitizeZoom` run under the adjusted `minZoom`. -/
def initZoomNumeric (mode : BoundsMode) (c : Config) (m : Metrics)
    (initialZoom : ℚ) : ℚ :=
  sanitizeZoom { c with minZoom := adjustedMinZoom mode c.minZoom m } initialZoom

/-- Concrete configuration used by the witnesses: the defaults
`bounds='contain'`, `minZoom=0.1`, `maxZoom=10`, `panStep=10`,
`zoomStep=50`, `zoomSpeedWheel=1`, `zoomSpeedPinch=4`. -/
def witnessConfig : Config :=
  { boundsEnabled := true, minZoom := 1/10, maxZoom := 10, panStep := 10,
    zoomStep := 50, zoomSpeedWheel := 1, zoomSpeedPinch := 4 }

/-- The witness configuration with `bounds` disabled. -/
def witnessConfigOff : Config :=
  { boundsEnabled := false, minZoom := 1/10, maxZoom := 10, panStep := 10,
    zoomStep := 50, zoomSpeedWheel := 1, zoomSpeedPinch := 4 }

/-- Concrete metrics used by the witnesses: an 800×600 wrapper around a
1600×1200 container. -/
def witnessMetrics : Metrics :=
  { wrapperWidth := 800, wrapperHeight := 600,
    containerWidth := 1600, containerHeight := 1200 }

/-- Concrete state used by the witnesses. -/
def witnessState : PZState := { zoom := 1, x := 0, y := 0 }

/-- First concrete pointer event used by the witnesses. -/
def evA : PointerEvt :=
  { pointerId := 1, pageX := 100, pageY := 100, clientX := 100, clientY := 100 }

/-- Second concrete pointer event used by the witnesses. -/
def evB : PointerEvt :=
  { pointerId := 2, pageX := 200, pageY := 150, clientX := 200, clientY := 150 }

/-- Concrete gesture state used by the witnesses: two cached pointers. -/
def witnessGesture : GestureState :=
  { core := witnessState, evCache := [evA, evB], blockPan := true,
    zoomCache := 1, xCache := 0, yCache := 0, pinchDiffCache := 50,
    centerCache := getTouchEventsCenter evA evB }

/-- Embedding of the percent form of `getPanX` (lines 602–609):
`panX = wrapperWidth * 0.5 + x * -1 + (zoom - 1) * (containerWidth * 0.5)`,
`percentX = panX / (containerWidth * zoom) * 100`. -/
def getPanXPercent (m : Metrics) (s : PZState) : ℚ :=
  let panX := m.wrapperWidth * (1/2) + s.x * (-1) + (s.zoom - 1) * (m.containerWidth * (1/2))
  panX / (m.containerWidth * s.zoom) * 100

/-- Embedding of the percent form of `getPanY` (lines 611–618). -/
def getPanYPercent (m : Metrics) (s : PZState) : ℚ :=
  let panY := m.wrapperHeight * (1/2) + s.y * (-1) + (s.zoom - 1) * (m.containerHeight * (1/2))
  panY / (m.containerHeight * s.zoom) * 100

/-- The x offset `panTo` assigns (lines 625–627):
`panX = ((containerWidth * zoom * x) / 100) * -1
  + (zoom - 1) * (containerWidth * 0.5) + wrapperWidth * 0.5`. -/
def panToRawX (m : Metrics) (s : PZState) (x : ℚ) : ℚ :=
  m.containerWidth * s.zoom * x / 100 * (-1)
    + (s.zoom - 1) * (m.containerWidth * (1/2)) + m.wrapperWidth * (1/2)

/-- The y offset `panTo` assigns (lines 629–631). -/
def panToRawY (m : Metrics) (s : PZState) (y : ℚ) : ℚ :=
  m.containerHeight * s.zoom * y / 100 * (-1)
    + (s.zoom - 1) * (m.containerHeight * (1/2)) + m.wrapperHeight * (1/2)

/-- Embedding of `panTo` (lines 621–646): assign the converted offsets,
then `setPosition`. -/
def panTo (c : Config) (m : Metrics) (s : PZState) (px py : ℚ) : PZState :=
  setPosition c m { s with x := panToRawX m s px, y := panToRawY m s py }

/-- The pan directions of `pan` (lines 664–688). -/
inductive PanDirection where
  | left
  | right
  | up
  | down
  deriving DecidableEq, Repr

/-- Embedding of `pan` (lines 664–688).  `step || panStep` treats a zero
step as falsy, so it falls back to `options.panStep`; `none` models a
missing argument.  Both `panWidth` (line 672) and `panHeight` (line 673)
are computed from `containerWidth` in the source. -/
def pan (c : Config) (m : Metrics) (s : PZState) (step : Option ℚ)
    (direction : PanDirection) : PZState :=
  let stepV := match step with
    | none => c.panStep
    | some q => if q = 0 then c.panStep else q
  let panWidth := m.containerWidth * stepV / 100 * s.zoom
  let panHeight := m.containerWidth * stepV / 100 * s.zoom
  let s1 := match direction with
    | .left => { s with x := s.x + panWidth * (-1) }
    | .right => { s with x := s.x + panWidth }
    | .up => { s with y := s.y + panHeight * (-1) }
    | .down => { s with y := s.y + panHeight }
  setPosition c m s1

/-! ## JavaScript float semantics for the division-by-dimension paths -/

/-- A JavaScript number as the degenerate-geometry paths can produce it:
a finite rational, one of the two infinities, or NaN. -/
inductive JSNum where
  | num : ℚ → JSNum
  | posInf
  | negInf
  | nan
  deriving DecidableEq, Repr

/-- JavaScript division of two finite numbers: `x / 0` is `±Infinity`
by the sign of `x`, and `0 / 0` is `NaN`. -/
def jsDivQ (a b : ℚ) : JSNum :=
  if b = 0 then (if a = 0 then .nan else if 0 < a then .posInf else .negInf)
  else .num (a / b)

/-- JavaScript `<`: every comparison against NaN is false. -/
def jsLt (a b : JSNum) : Bool :=
  match a with
  | .nan => false
  | .num x =>
    match b with
    | .nan => false
    | .num y => decide (x < y)
    | .posInf => true
    | .negInf => false
  | .posInf => false
  | .negInf =>
    match b with
    | .nan => false
    | .negInf => false
    | _ => true

/-- JavaScript `Math.max` of two values: NaN propagates. -/
def jsMax (a b : JSNum) : JSNum :=
  match a with
  | .nan => .nan
  | _ =>
    match b with
    | .nan => .nan
    | _ => if jsLt a b then b else a

/-- JavaScript `Math.min` of two values: NaN propagates. -/
def jsMin (a b : JSNum) : JSNum :=
  match a with
  | .nan => .nan
  | _ =>
    match b with
    | .nan => .nan
    | _ => if jsLt a b then a else b

/-- Whether a JavaScript number is finite. -/
def isFinite : JSNum → Bool
  | .num _ => true
  | _ => false

/-- The `minZoom` adjustment of `init` (lines 90–112) in JS float
semantics, with `minZoomX = wrapperWidth / containerWidth` and
`minZoomY = wrapperHeight / containerHeight`. -/
def adjustedMinZoomJS (mode : BoundsMode) (minZoom : ℚ) (m : Metrics) : JSNum :=
  let minZoomX := jsDivQ m.wrapperWidth m.containerWidth
  let minZoomY := jsDivQ m.wrapperHeight m.containerHeight
  match mode with
  | .off => .num minZoom
  | .cover => jsMax (jsMax (.num minZoom) minZoomX) minZoomY
  | .contain => jsMax (.num minZoom) (jsMin minZoomX minZoomY)

/-- The clamp at the end of `sanitizeZoom` (lines 501–511) in JS float
semantics: `if (zoom < minZoom) zoom = minZoom` then
`if (zoom > maxZoom) zoom = maxZoom`. -/
def sanitizeZoomClampJS (minZoom maxZoom zoom : JSNum) : JSNum :=
  let z1 := if jsLt zoom minZoom then minZoom else zoom
  if jsLt maxZoom z1 then maxZoom else z1

/-- The symbolic `'contain'` branch of `sanitizeZoom` (lines 478–499)
followed by the clamp, in JS float semantics: the zoom becomes
`Math.min(wrapperWidth / containerWidth, wrapperHeight / containerHeight)`
and is then clamped. -/
def sanitizeZoomContainJS (minZoom maxZoom : JSNum) (m : Metrics) : JSNum :=
  let minZoomX := jsDivQ m.wrapperWidth m.containerWidth
  let minZoomY := jsDivQ m.wrapperHeight m.containerHeight
  sanitizeZoomClampJS minZoom maxZoom (jsMin minZoomX minZoomY)

/-- The zoom stored by `init` (line 115) under the default options
`bounds='contain'`, `initialZoom='contain'`, in JS float semantics: the
`minZoom` adjustment runs first, then the symbolic sanitize. -/
def initZoomJS (minZoom maxZoom : ℚ) (m : Metrics) : JSNum :=
  sanitizeZoomContainJS (adjustedMinZoomJS .contain minZoom m) (.num maxZoom) m

/-! ## The thrown-exception paths -/

/-- A thrown JavaScript exception. -/
inductive JsError where
  | typeError : String → JsError
  deriving DecidableEq, Repr

/-- The direction argument of `zoomInOut`. -/
inductive ZoomDirection where
  | inward
  | outward
  deriving DecidableEq, Repr

/-- Embedding of `zoomInOut` (lines 550–568).  The source declares
`const zoomStep = (100 + step) / 100` and then, for direction `'out'`,
executes `zoomStep = 1 / zoomStep`; the file is an ES module, so the
assignment to the `const` binding throws a `TypeError` at that point,
before any zoom is computed.  The boolean-step shuffle (lines 552–555)
moves a boolean `step` into the `instant` flag, so `step` is modelled as
an optional rational; `step || zoomStep` treats `0` as falsy. -/
def zoomInOut (c : Config) (m : Metrics) (s : PZState) (step : Option ℚ)
    (direction : ZoomDirection) : Except JsError PZState :=
  let stepV := match step with
    | none => c.zoomStep
    | some q => if q = 0 then c.zoomStep else q
  let zoomStep := (100 + stepV) / 100
  match direction with
  | .outward => .error (.typeError "Assignment to constant variable.")
  | .inward => .ok (zoomTo c m s (s.zoom * zoomStep))

/-- Embedding of `zoomIn` (lines 540–542). -/
def zoomIn (c : Config) (m : Metrics) (s : PZState) (step : Option ℚ) :
    Except JsError PZState :=
  zoomInOut c m s step .inward

/-- Embedding of `zoomOut` (lines 545–547). -/
def zoomOut (c : Config) (m : Metrics) (s : PZState) (step : Option ℚ) :
    Except JsError PZState :=
  zoomInOut c m s step .outward

/-- A resolvable DOM element surface. -/
structure Element where
  clientWidth : ℚ
  clientHeight : ℚ
  deriving DecidableEq, Repr

/-- A surface identifier option as the constructor receives it: absent
(`null`), present but unresolvable (a selector that matches nothing or a
non-Element value), or resolving to a live element. -/
inductive SurfaceOpt where
  | absent
  | unresolvable
  | resolved : Element → SurfaceOpt
  deriving DecidableEq, Repr

/-- Embedding of `getWrapper` (lines 691–723): returns the resolved
element or null, paired with the `console.error` messages it logs.  The
source reports and returns null instead of throwing. -/
def getWrapper (wrapperElement : SurfaceOpt) : Option Element × List String :=
  match wrapperElement with
  | .absent => (none, ["The option wrapperElement is required."])
  | .unresolvable =>
    (none, ["The option wrapperElement needs to be a valid selector string or an instance of Element."])
  | .resolved el => (some el, [])

/-- Embedding of `getContainer` (lines 726–758), symmetric to
`getWrapper`. -/
def getContainer (panZoomElement : SurfaceOpt) : Option Element × List String :=
  match panZoomElement with
  | .absent => (none, ["The option panZoomElement is required."])
  | .unresolvable =>
    (none, ["The option panZoomElement needs to be a valid selector string or an instance of Element."])
  | .resolved el => (some el, [])

/-- Embedding of the resolution part of `init` (lines 72–130): `init`
resolves both surfaces (lines 74–75, logging on failure), then
dereferences the wrapper (`wrapper.style.cursor`, line 78) and later the
container (`container.clientWidth`, line 94, under the default
`bounds='contain'`).  When either resolution returned null, the
dereference throws a `TypeError`; the collected log messages are returned
alongside. -/
def initResolve (wrapperElement panZoomElement : SurfaceOpt) :
    List String × Except JsError Unit :=
  let w := getWrapper wrapperElement
  let cEl := getContainer panZoomElement
  let logs := w.2 ++ cEl.2
  match w.1 with
  | none =>
    (logs, .error (.typeError "Cannot read properties of null (reading 'style')"))
  | some _ =>
    match cEl.1 with
    | none =>
      (logs, .error (.typeError "Cannot read properties of null (reading 'clientWidth')"))
    | some _ => (logs, .ok ())

/-- Third concrete pointer event, used to overfill the cache. -/
def evC : PointerEvt :=
  { pointerId := 3, pageX := 300, pageY := 120, clientX := 300, clientY := 120 }

/-- A gesture state with an empty pointer cache. -/
def gestureEmpty : GestureState :=
  { core := witnessState, evCache := [], blockPan := false,
    zoomCache := 1, xCache := 0, yCache := 0, pinchDiffCache := 0,
    centerCache := ⟨0, 0, 0, 0⟩ }

/-- A gesture state holding exactly one cached pointer. -/
def gestureOne : GestureState :=
  { core := witnessState, evCache := [evA], blockPan := false,
    zoomCache := 1, xCache := 0, yCache := 0, pinchDiffCache := 0,
    centerCache := ⟨0, 0, 0, 0⟩ }

theorem getTouchEventsDistanceR_eq (ev1 ev2 : PointerEvt) :
    getTouchEventsDistanceR ev1 ev2 = ((getTouchEventsDistanceQ ev1 ev2 : ℚ) : ℝ) := by
  unfold getTouchEventsDistanceR getTouchEventsDistanceQ
  rw [sub_self]
  rw [show ((0:ℝ) ^ 2 + ((ev1.pageY : ℝ) - (ev2.pageY : ℝ)) ^ 2) =
      ((ev1.pageY : ℝ) - (ev2.pageY : ℝ)) ^ 2 by ring]
  rw [Real.sqrt_sq_eq_abs]
  push_cast
  rw [abs_abs]

theorem sanitizeZoom_eq_clamp (c : Config) (z : ℚ) (h : c.minZoom ≤ c.maxZoom) :
    sanitizeZoom c z = max c.minZoom (min z c.maxZoom) := by
  unfold sanitizeZoom
  rcases lt_or_le z c.minZoom with hz | hz
  · simp only [if_pos hz]
    rw [min_eq_left (le_trans hz.le h), max_eq_left hz.le, if_neg (not_lt.mpr h)]
  · simp only [if_neg (not_lt.mpr hz)]
    rcases lt_or_le c.maxZoom z with hz2 | hz2
    · rw [if_pos hz2, min_eq_right hz2.le, max_eq_right h]
    · rw [if_neg (not_lt.mpr hz2), min_eq_left hz2, max_eq_right hz]

theorem sanitizeZoom_mem (c : Config) (z : ℚ) (h : c.minZoom ≤ c.maxZoom) :
    c.minZoom ≤ sanitizeZoom c z ∧ sanitizeZoom c z ≤ c.maxZoom := by
  rw [sanitizeZoom_eq_clamp c z h]
  exact ⟨le_max_left _ _, max_le h (min_le_right _ _)⟩

theorem setPosition_zoom (c : Config) (m : Metrics) (s : PZState) :
    (setPosition c m s).zoom = s.zoom := by
  unfold setPosition
  split <;> rfl

theorem zoomTo_zoom (c : Config) (m : Metrics) (s : PZState) (z : ℚ) :
    (zoomTo c m s z).zoom = sanitizeZoom c z := by
  unfold zoomTo
  rw [setPosition_zoom]

theorem mouseWheelEvent_zoom (c : Config) (m : Metrics) (s : PZState)
    (deltaY : ℚ) (deltaMode : ℕ) (ox oy : ℚ) :
    (mouseWheelEvent c m s deltaY deltaMode ox oy).zoom =
      sanitizeZoom c (s.zoom * deltaAdjustedSpeed c.zoomSpeedWheel
        (if deltaMode > 0 then deltaY * 100 else deltaY)) := by
  unfold mouseWheelEvent
  rw [setPosition_zoom]

theorem pointerMoveEvent_zoom_of_two (c : Config) (m : Metrics) (g : GestureState)
    (ev e0 e1 : PointerEvt) (ox oy : ℚ)
    (hcache : updateFirst g.evCache ev = [e0, e1]) :
    (pointerMoveEvent c m g ev ox oy).core.zoom =
      sanitizeZoom c (g.zoomCache *
        ((getTouchEventsDistanceQ e0 e1 - g.pinchDiffCache) / m.containerWidth *
          c.zoomSpeedPinch + 1)) := by
  unfold pointerMoveEvent
  simp only [hcache, setPosition_zoom]

theorem initZoomNumeric_mem (mode : BoundsMode) (c : Config) (m : Metrics) (z0 : ℚ)
    (h : adjustedMinZoom mode c.minZoom m ≤ c.maxZoom) :
    adjustedMinZoom mode c.minZoom m ≤ initZoomNumeric mode c m z0
      ∧ initZoomNumeric mode c m z0 ≤ c.maxZoom :=
  sanitizeZoom_mem { c with minZoom := adjustedMinZoom mode c.minZoom m } z0 h

theorem upperOffsetX_sub_lowerOffsetX (m : Metrics) (s : PZState) :
    upperOffsetX m s - lowerOffsetX m s = m.containerWidth * s.zoom - m.wrapperWidth := by
  simp only [upperOffsetX, lowerOffsetX]
  ring

theorem upperOffsetY_sub_lowerOffsetY (m : Metrics) (s : PZState) :
    upperOffsetY m s - lowerOffsetY m s = m.containerHeight * s.zoom - m.wrapperHeight := by
  simp only [upperOffsetY, lowerOffsetY]
  ring

theorem setPosition_x_eq (c : Config) (m : Metrics) (s : PZState)
    (h : c.boundsEnabled = true) :
    (setPosition c m s).x =
      if m.containerWidth * s.zoom < m.wrapperWidth then
        (if (if s.x < upperOffsetX m s then upperOffsetX m s else s.x) > lowerOffsetX m s
          then lowerOffsetX m s
          else (if s.x < upperOffsetX m s then upperOffsetX m s else s.x))
      else max (min s.x (upperOffsetX m s)) (lowerOffsetX m s) := by
  unfold setPosition
  rw [h]
  rfl

theorem setPosition_y_eq (c : Config) (m : Metrics) (s : PZState)
    (h : c.boundsEnabled = true) :
    (setPosition c m s).y =
      if m.containerHeight * s.zoom < m.wrapperHeight then
        (if (if s.y < upperOffsetY m s then upperOffsetY m s else s.y) > lowerOffsetY m s
          then lowerOffsetY m s
          else (if s.y < upperOffsetY m s then upperOffsetY m s else s.y))
      else max (min s.y (upperOffsetY m s)) (lowerOffsetY m s) := by
  unfold setPosition
  rw [h]
  rfl

/-- C1: For every valid numeric zoom request `z`, `sanitizeZoom z` returns
`clamp(z, minZoom, maxZoom)`, and after any public zoom mutation
(`zoomTo`, a wheel event, a pinch update, initialization) completes, the
state satisfies `minZoom ≤ zoom ≤ maxZoom` (for initialization, with
respect to the `minZoom` adjusted by `init` for the bounds mode). -/
theorem c1_sanitize_clamp_and_zoom_invariant
    (c : Config) (m : Metrics) (s : PZState) (z deltaY ox oy z0 : ℚ)
    (deltaMode : ℕ) (g : GestureState) (ev e0 e1 : PointerEvt) (mode : BoundsMode)
    (h : c.minZoom ≤ c.maxZoom)
    (hcache : updateFirst g.evCache ev = [e0, e1])
    (hinit : adjustedMinZoom mode c.minZoom m ≤ c.maxZoom) :
    sanitizeZoom c z = max c.minZoom (min z c.maxZoom)
    ∧ (c.minZoom ≤ (zoomTo c m s z).zoom ∧ (zoomTo c m s z).zoom ≤ c.maxZoom)
    ∧ (c.minZoom ≤ (mouseWheelEvent c m s deltaY deltaMode ox oy).zoom
        ∧ (mouseWheelEvent c m s deltaY deltaMode ox oy).zoom ≤ c.maxZoom)
    ∧ (c.minZoom ≤ (pointerMoveEvent c m g ev ox oy).core.zoom
        ∧ (pointerMoveEvent c m g ev ox oy).core.zoom ≤ c.maxZoom)
    ∧ (adjustedMinZoom mode c.minZoom m ≤ initZoomNumeric mode c m z0
        ∧ initZoomNumeric mode c m z0 ≤ c.maxZoom) := by
  refine ⟨sanitizeZoom_eq_clamp c z h, ?_, ?_, ?_, initZoomNumeric_mem mode c m z0 hinit⟩
  · rw [zoomTo_zoom]
    exact sanitizeZoom_mem c z h
  · rw [mouseWheelEvent_zoom]
    exact sanitizeZoom_mem c _ h
  · rw [pointerMoveEvent_zoom_of_two c m g ev e0 e1 ox oy hcache]
    exact sanitizeZoom_mem c _ h

theorem c1_sanitize_clamp_and_zoom_invariant_witness :
    witnessConfig.minZoom ≤ witnessConfig.maxZoom
    ∧ updateFirst witnessGesture.evCache evA = [evA, evB]
    ∧ adjustedMinZoom .contain witnessConfig.minZoom witnessMetrics ≤ witnessConfig.maxZoom
    ∧ (sanitizeZoom witnessConfig 3 = max witnessConfig.minZoom (min 3 witnessConfig.maxZoom)
      ∧ (witnessConfig.minZoom ≤ (zoomTo witnessConfig witnessMetrics witnessState 3).zoom
        ∧ (zoomTo witnessConfig witnessMetrics witnessState 3).zoom ≤ witnessConfig.maxZoom)
      ∧ (witnessConfig.minZoom ≤
          (mouseWheelEvent witnessConfig witnessMetrics witnessState (-120) 0 5 7).zoom
        ∧ (mouseWheelEvent witnessConfig witnessMetrics witnessState (-120) 0 5 7).zoom
            ≤ witnessConfig.maxZoom)
      ∧ (witnessConfig.minZoom ≤
          (pointerMoveEvent witnessConfig witnessMetrics witnessGesture evA 5 7).core.zoom
        ∧ (pointerMoveEvent witnessConfig witnessMetrics witnessGesture evA 5 7).core.zoom
            ≤ witnessConfig.maxZoom)
      ∧ (adjustedMinZoom .contain witnessConfig.minZoom witnessMetrics ≤
          initZoomNumeric .contain witnessConfig witnessMetrics 2
        ∧ initZoomNumeric .contain witnessConfig witnessMetrics 2 ≤ witnessConfig.maxZoom)) :=
  ⟨by norm_num [witnessConfig], by decide,
    by norm_num [adjustedMinZoom, witnessConfig, witnessMetrics],
    c1_sanitize_clamp_and_zoom_invariant witnessConfig witnessMetrics witnessState
      3 (-120) 5 7 2 0 witnessGesture evA evA evB .contain
      (by norm_num [witnessConfig]) (by decide)
      (by norm_num [adjustedMinZoom, witnessConfig, witnessMetrics])⟩

/-- C2: when bounds is enabled, after `setPosition` each axis offset lies
within the clamp window `[lowerOffset, upperOffset]` when
`zoom * contentSize ≥ viewportSize` on that axis, and within
`[min(upperOffset, lowerOffset), max(upperOffset, lowerOffset)]` when the
zoomed content is smaller than the viewport on that axis. -/
theorem c2_bounds_window (c : Config) (m : Metrics) (s : PZState)
    (h : c.boundsEnabled = true) :
    ((m.wrapperWidth ≤ s.zoom * m.containerWidth →
        lowerOffsetX m s ≤ (setPosition c m s).x
          ∧ (setPosition c m s).x ≤ upperOffsetX m s)
      ∧ (s.zoom * m.containerWidth < m.wrapperWidth →
        min (upperOffsetX m s) (lowerOffsetX m s) ≤ (setPosition c m s).x
          ∧ (setPosition c m s).x ≤ max (upperOffsetX m s) (lowerOffsetX m s)))
    ∧ ((m.wrapperHeight ≤ s.zoom * m.containerHeight →
        lowerOffsetY m s ≤ (setPosition c m s).y
          ∧ (setPosition c m s).y ≤ upperOffsetY m s)
      ∧ (s.zoom * m.containerHeight < m.wrapperHeight →
        min (upperOffsetY m s) (lowerOffsetY m s) ≤ (setPosition c m s).y
          ∧ (setPosition c m s).y ≤ max (upperOffsetY m s) (lowerOffsetY m s))) := by
  have hdx := upperOffsetX_sub_lowerOffsetX m s
  have hdy := upperOffsetY_sub_lowerOffsetY m s
  constructor
  · constructor
    · intro hge
      rw [setPosition_x_eq c m s h, if_neg (by rw [mul_comm] at hge; exact not_lt.mpr hge)]
      have hul : lowerOffsetX m s ≤ upperOffsetX m s := by
        rw [mul_comm] at hge; linarith
      exact ⟨le_max_right _ _, max_le (le_trans (min_le_right _ _) le_rfl) hul⟩
    · intro hlt
      rw [mul_comm] at hlt
      rw [setPosition_x_eq c m s h, if_pos hlt]
      have hul : upperOffsetX m s ≤ lowerOffsetX m s := by linarith
      rw [min_eq_left hul, max_eq_right hul]
      split_ifs with h1 h2 h3 <;> constructor <;> linarith
  · constructor
    · intro hge
      rw [setPosition_y_eq c m s h, if_neg (by rw [mul_comm] at hge; exact not_lt.mpr hge)]
      have hul : lowerOffsetY m s ≤ upperOffsetY m s := by
        rw [mul_comm] at hge; linarith
      exact ⟨le_max_right _ _, max_le (le_trans (min_le_right _ _) le_rfl) hul⟩
    · intro hlt
      rw [mul_comm] at hlt
      rw [setPosition_y_eq c m s h, if_pos hlt]
      have hul : upperOffsetY m s ≤ lowerOffsetY m s := by linarith
      rw [min_eq_left hul, max_eq_right hul]
      split_ifs with h1 h2 h3 <;> constructor <;> linarith

theorem c2_bounds_window_witness :
    witnessConfig.boundsEnabled = true
    ∧ (((witnessMetrics.wrapperWidth ≤
          witnessState.zoom * witnessMetrics.containerWidth →
        lowerOffsetX witnessMetrics witnessState ≤
            (setPosition witnessConfig witnessMetrics witnessState).x
          ∧ (setPosition witnessConfig witnessMetrics witnessState).x ≤
            upperOffsetX witnessMetrics witnessState)
      ∧ (witnessState.zoom * witnessMetrics.containerWidth <
          witnessMetrics.wrapperWidth →
        min (upperOffsetX witnessMetrics witnessState)
            (lowerOffsetX witnessMetrics witnessState) ≤
            (setPosition witnessConfig witnessMetrics witnessState).x
          ∧ (setPosition witnessConfig witnessMetrics witnessState).x ≤
            max (upperOffsetX witnessMetrics witnessState)
              (lowerOffsetX witnessMetrics witnessState)))
    ∧ ((witnessMetrics.wrapperHeight ≤
          witnessState.zoom * witnessMetrics.containerHeight →
        lowerOffsetY witnessMetrics witnessState ≤
            (setPosition witnessConfig witnessMetrics witnessState).y
          ∧ (setPosition witnessConfig witnessMetrics witnessState).y ≤
            upperOffsetY witnessMetrics witnessState)
      ∧ (witnessState.zoom * witnessMetrics.containerHeight <
          witnessMetrics.wrapperHeight →
        min (upperOffsetY witnessMetrics witnessState)
            (lowerOffsetY witnessMetrics witnessState) ≤
            (setPosition witnessConfig witnessMetrics witnessState).y
          ∧ (setPosition witnessConfig witnessMetrics witnessState).y ≤
            max (upperOffsetY witnessMetrics witnessState)
              (lowerOffsetY witnessMetrics witnessState)))) :=
  ⟨rfl, c2_bounds_window witnessConfig witnessMetrics witnessState rfl⟩

theorem setPosition_of_bounds_off (c : Config) (m : Metrics) (s : PZState)
    (h : c.boundsEnabled = false) : setPosition c m s = s := by
  unfold setPosition
  rw [h]
  rfl

/-- C6: for every state with `zoom` in `[minZoom, maxZoom]` (with
`0 < minZoom`) and positive surface dimensions, `PanToPercent` applied to
the result of `GetPanPercent` reproduces the original `x` and `y` offsets
exactly, and conversely `GetPanPercent` recovers the percentages fed to
`PanToPercent`: the two conversions are mutual inverses. -/
theorem c6_pan_percent_roundtrip (c : Config) (m : Metrics) (s : PZState) (px py : ℚ)
    (hminpos : 0 < c.minZoom) (hmin : c.minZoom ≤ s.zoom) (_hmax : s.zoom ≤ c.maxZoom)
    (hw : 0 < m.containerWidth) (hh : 0 < m.containerHeight) :
    panToRawX m s (getPanXPercent m s) = s.x
    ∧ panToRawY m s (getPanYPercent m s) = s.y
    ∧ getPanXPercent m { s with x := panToRawX m s px } = px
    ∧ getPanYPercent m { s with y := panToRawY m s py } = py := by
  have hz : s.zoom ≠ 0 := ne_of_gt (lt_of_lt_of_le hminpos hmin)
  have hw0 : m.containerWidth ≠ 0 := ne_of_gt hw
  have hh0 : m.containerHeight ≠ 0 := ne_of_gt hh
  refine ⟨?_, ?_, ?_, ?_⟩ <;>
    · simp only [getPanXPercent, getPanYPercent, panToRawX, panToRawY]
      field_simp
      ring

theorem c6_pan_percent_roundtrip_witness :
    0 < witnessConfig.minZoom
    ∧ witnessConfig.minZoom ≤ witnessState.zoom
    ∧ witnessState.zoom ≤ witnessConfig.maxZoom
    ∧ 0 < witnessMetrics.containerWidth
    ∧ 0 < witnessMetrics.containerHeight
    ∧ (panToRawX witnessMetrics witnessState
          (getPanXPercent witnessMetrics witnessState) = witnessState.x
      ∧ panToRawY witnessMetrics witnessState
          (getPanYPercent witnessMetrics witnessState) = witnessState.y
      ∧ getPanXPercent witnessMetrics
          { witnessState with x := panToRawX witnessMetrics witnessState 30 } = 30
      ∧ getPanYPercent witnessMetrics
          { witnessState with y := panToRawY witnessMetrics witnessState 70 } = 70) :=
  ⟨by norm_num [witnessConfig], by norm_num [witnessConfig, witnessState],
    by norm_num [witnessConfig, witnessState], by norm_num [witnessMetrics],
    by norm_num [witnessMetrics],
    c6_pan_percent_roundtrip witnessConfig witnessMetrics witnessState 30 70
      (by norm_num [witnessConfig]) (by norm_num [witnessConfig, witnessState])
      (by norm_num [witnessConfig, witnessState]) (by norm_num [witnessMetrics])
      (by norm_num [witnessMetrics])⟩

theorem deltaAdjustedSpeed_bounds (speed delta : ℚ) :
    3/4 ≤ deltaAdjustedSpeed speed delta ∧ deltaAdjustedSpeed speed delta ≤ 5/4 := by
  unfold deltaAdjustedSpeed jsSign
  have ht0 : (0:ℚ) ≤ min (1/4) |speed * delta / 128| :=
    le_min (by norm_num) (abs_nonneg _)
  have ht1 : min ((1:ℚ)/4) |speed * delta / 128| ≤ 1/4 := min_le_left _ _
  split_ifs <;> constructor <;> linarith

/-- C7: each wheel event multiplies zoom by
`adjustedSpeed = 1 - sign(delta) * min(0.25, |speed * delta / 128|)` with
`delta` scaled by 100 when `deltaMode > 0`, then sanitizes; the factor
always lies in `[0.75, 1.25]`, so a single wheel event changes zoom by at
most 25% before clamping; and a wheel event with `deltaY = -120`,
`deltaMode = 0` and `zoomSpeedWheel = 1` yields the factor `1.25` and
strictly increases the zoom whenever the current zoom is below `maxZoom`. -/
theorem c7_wheel_speed_capped_and_increases (c : Config) (m : Metrics) (s : PZState)
    (ox oy speed delta deltaY : ℚ) (deltaMode : ℕ)
    (h1 : c.minZoom ≤ c.maxZoom) (h2 : 0 < s.zoom) (h3 : s.zoom < c.maxZoom)
    (h4 : c.zoomSpeedWheel = 1) :
    (mouseWheelEvent c m s deltaY deltaMode ox oy).zoom =
      sanitizeZoom c (s.zoom * deltaAdjustedSpeed c.zoomSpeedWheel
        (if deltaMode > 0 then deltaY * 100 else deltaY))
    ∧ (3/4 ≤ deltaAdjustedSpeed speed delta ∧ deltaAdjustedSpeed speed delta ≤ 5/4)
    ∧ |s.zoom * deltaAdjustedSpeed speed delta - s.zoom| ≤ s.zoom * (1/4)
    ∧ deltaAdjustedSpeed c.zoomSpeedWheel (-120) = 5/4
    ∧ s.zoom < (mouseWheelEvent c m s (-120) 0 ox oy).zoom := by
  have hb := deltaAdjustedSpeed_bounds speed delta
  have hval : deltaAdjustedSpeed c.zoomSpeedWheel (-120) = 5/4 := by
    rw [h4]
    unfold deltaAdjustedSpeed jsSign
    rw [if_pos (by norm_num : (-120:ℚ) < 0),
      show |(1:ℚ) * (-120) / 128| = 15/16 by
        rw [abs_of_nonpos (by norm_num)]; norm_num,
      min_eq_left (by norm_num)]
    norm_num
  refine ⟨mouseWheelEvent_zoom c m s deltaY deltaMode ox oy, hb, ?_, hval, ?_⟩
  · have habs : |deltaAdjustedSpeed speed delta - 1| ≤ 1/4 :=
      abs_le.mpr ⟨by linarith [hb.1], by linarith [hb.2]⟩
    calc |s.zoom * deltaAdjustedSpeed speed delta - s.zoom|
        = s.zoom * |deltaAdjustedSpeed speed delta - 1| := by
          rw [show s.zoom * deltaAdjustedSpeed speed delta - s.zoom
              = s.zoom * (deltaAdjustedSpeed speed delta - 1) by ring,
            abs_mul, abs_of_pos h2]
      _ ≤ s.zoom * (1/4) := by
          exact mul_le_mul_of_nonneg_left habs h2.le
  · have h0 : (if (0:ℕ) > 0 then (-120:ℚ) * 100 else (-120)) = -120 := rfl
    rw [mouseWheelEvent_zoom, h0, hval, sanitizeZoom_eq_clamp c _ h1]
    exact lt_of_lt_of_le (lt_min (by linarith) h3) (le_max_right _ _)

theorem c7_wheel_speed_capped_and_increases_witness :
    witnessConfig.minZoom ≤ witnessConfig.maxZoom
    ∧ 0 < witnessState.zoom
    ∧ witnessState.zoom < witnessConfig.maxZoom
    ∧ witnessConfig.zoomSpeedWheel = 1
    ∧ ((mouseWheelEvent witnessConfig witnessMetrics witnessState (-120) 0 5 7).zoom =
        sanitizeZoom witnessConfig (witnessState.zoom *
          deltaAdjustedSpeed witnessConfig.zoomSpeedWheel
            (if (0:ℕ) > 0 then (-120) * 100 else (-120)))
      ∧ (3/4 ≤ deltaAdjustedSpeed 1 (-120) ∧ deltaAdjustedSpeed 1 (-120) ≤ 5/4)
      ∧ |witnessState.zoom * deltaAdjustedSpeed 1 (-120) - witnessState.zoom| ≤
          witnessState.zoom * (1/4)
      ∧ deltaAdjustedSpeed witnessConfig.zoomSpeedWheel (-120) = 5/4
      ∧ witnessState.zoom <
          (mouseWheelEvent witnessConfig witnessMetrics witnessState (-120) 0 5 7).zoom) :=
  ⟨by norm_num [witnessConfig], by norm_num [witnessState],
    by norm_num [witnessConfig, witnessState], rfl,
    c7_wheel_speed_capped_and_increases witnessConfig witnessMetrics witnessState
      5 7 1 (-120) (-120) 0
      (by norm_num [witnessConfig]) (by norm_num [witnessState])
      (by norm_num [witnessConfig, witnessState]) rfl⟩

/-- C9: the pinch distance `getTouchEventsDistance(ev1, ev2)` equals the
absolute vertical separation `|ev1.pageY - ev2.pageY|`: the x term of the
source's `Math.hypot` is identically zero because both sides of the
subtraction read `ev1.pageX`. -/
theorem c9_touch_distance_vertical_only (ev1 ev2 : PointerEvt) :
    getTouchEventsDistanceR ev1 ev2 = ((|ev1.pageY - ev2.pageY| : ℚ) : ℝ)
    ∧ ev1.pageX - ev1.pageX = 0 :=
  ⟨getTouchEventsDistanceR_eq ev1 ev2, sub_self _⟩

/-- C10: for every nonzero step value (and for the default), `panUp` and
`panDown` change `y` by `(containerWidth * step / 100) * zoom` — the
vertical pan step is computed from the content surface's width, not its
height — so the vertical and horizontal pan steps are equal in pixels
regardless of the content's height.  Stated with bounds disabled so the
assigned offset is not subsequently clamped. -/
theorem c10_vertical_pan_step_uses_width (c : Config) (m : Metrics) (s : PZState)
    (q : ℚ) (hb : c.boundsEnabled = false) (hq : q ≠ 0) :
    (pan c m s (some q) .down).y = s.y + m.containerWidth * q / 100 * s.zoom
    ∧ (pan c m s (some q) .up).y = s.y - m.containerWidth * q / 100 * s.zoom
    ∧ (pan c m s (some q) .down).y - s.y = (pan c m s (some q) .right).x - s.x
    ∧ s.y - (pan c m s (some q) .up).y = (pan c m s (some q) .right).x - s.x
    ∧ (pan c m s none .down).y = s.y + m.containerWidth * c.panStep / 100 * s.zoom := by
  simp only [pan, if_neg hq, setPosition_of_bounds_off c m _ hb]
  refine ⟨by ring_nf, by ring_nf, by ring_nf, by ring_nf, by ring_nf⟩

theorem c10_vertical_pan_step_uses_width_witness :
    witnessConfigOff.boundsEnabled = false
    ∧ (10:ℚ) ≠ 0
    ∧ ((pan witnessConfigOff witnessMetrics witnessState (some 10) .down).y =
        witnessState.y + witnessMetrics.containerWidth * 10 / 100 * witnessState.zoom
      ∧ (pan witnessConfigOff witnessMetrics witnessState (some 10) .up).y =
        witnessState.y - witnessMetrics.containerWidth * 10 / 100 * witnessState.zoom
      ∧ (pan witnessConfigOff witnessMetrics witnessState (some 10) .down).y -
          witnessState.y =
        (pan witnessConfigOff witnessMetrics witnessState (some 10) .right).x -
          witnessState.x
      ∧ witnessState.y -
          (pan witnessConfigOff witnessMetrics witnessState (some 10) .up).y =
        (pan witnessConfigOff witnessMetrics witnessState (some 10) .right).x -
          witnessState.x
      ∧ (pan witnessConfigOff witnessMetrics witnessState none .down).y =
        witnessState.y +
          witnessMetrics.containerWidth * witnessConfigOff.panStep / 100 *
            witnessState.zoom) :=
  ⟨rfl, by norm_num,
    c10_vertical_pan_step_uses_width witnessConfigOff witnessMetrics witnessState 10
      rfl (by norm_num)⟩

/-- C3 counterexample: with a 0×0 viewport and 0×0 content under the
default configuration, initialization does not short-circuit: it computes
`0 / 0` and stores `NaN` as the zoom — a non-finite value — instead of
leaving the state unchanged. -/
theorem c3_no_degenerate_guard_counterexample :
    initZoomJS 1 10 ⟨0, 0, 0, 0⟩ = .nan
      ∧ isFinite (initZoomJS 1 10 ⟨0, 0, 0, 0⟩) = false := by
  constructor <;> rfl

/-- C3 (amended): the geometry engine has no degenerate-geometry guard:
whenever the viewport and content widths are both zero, the
default-configuration initialization path divides `0 / 0`, propagates the
resulting NaN through the `minZoom` adjustment and the sanitize clamp
(every NaN comparison being false), and stores NaN as the zoom, for any
configured `minZoom`/`maxZoom` and any heights. -/
theorem c3_no_degenerate_guard (minZoom maxZoom : ℚ) (m : Metrics)
    (hw : m.wrapperWidth = 0) (hc : m.containerWidth = 0) :
    initZoomJS minZoom maxZoom m = .nan
      ∧ isFinite (initZoomJS minZoom maxZoom m) = false := by
  have hdiv : jsDivQ m.wrapperWidth m.containerWidth = .nan := by
    rw [hw, hc]
    rfl
  have h1 : jsMin (jsDivQ m.wrapperWidth m.containerWidth)
      (jsDivQ m.wrapperHeight m.containerHeight) = .nan := by
    rw [hdiv]
    rfl
  have h2 : adjustedMinZoomJS .contain minZoom m = .nan := by
    simp only [adjustedMinZoomJS]
    rw [h1]
    rfl
  have h3 : initZoomJS minZoom maxZoom m = .nan := by
    simp only [initZoomJS, sanitizeZoomContainJS]
    rw [h2, h1]
    rfl
  exact ⟨h3, by rw [h3]; rfl⟩

theorem c3_no_degenerate_guard_witness :
    (⟨0, 600, 0, 1200⟩ : Metrics).wrapperWidth = 0
    ∧ (⟨0, 600, 0, 1200⟩ : Metrics).containerWidth = 0
    ∧ (initZoomJS 1 10 ⟨0, 600, 0, 1200⟩ = .nan
      ∧ isFinite (initZoomJS 1 10 ⟨0, 600, 0, 1200⟩) = false) :=
  ⟨rfl, rfl, c3_no_degenerate_guard 1 10 ⟨0, 600, 0, 1200⟩ rfl rfl⟩

/-- C4 (what the code does at the claim's failing input): for every step
value (or the default), `zoomOut` throws a `TypeError` — the `const`
binding `zoomStep` is reassigned when the direction is `'out'` — so the
exception crosses the public API, no instance is returned and the zoom
never decreases; `zoomIn` by contrast completes and returns the updated
state. -/
theorem c4_zoomOut_always_throws (c : Config) (m : Metrics) (s : PZState)
    (step : Option ℚ) :
    zoomOut c m s step = .error (.typeError "Assignment to constant variable.")
    ∧ zoomIn c m s step =
        .ok (zoomTo c m s (s.zoom * ((100 + (match step with
          | none => c.zoomStep
          | some q => if q = 0 then c.zoomStep else q)) / 100))) := by
  constructor
  · rfl
  · rfl

/-- C5 (what the code does at the claim's failing input): constructing an
instance whose `wrapperElement` is absent does report the error through
the logging collaborator, but the constructor then dereferences the null
wrapper and throws a `TypeError` — the instance is never constructed, so
no degraded no-op state exists; an unresolvable identifier behaves the
same way with its own message, and the analogous failure occurs for a
missing `panZoomElement`. -/
theorem c5_missing_wrapper_throws (pz : SurfaceOpt) (el : Element) :
    (initResolve .absent pz).1.head? = some "The option wrapperElement is required."
    ∧ (initResolve .absent pz).2 =
        .error (.typeError "Cannot read properties of null (reading 'style')")
    ∧ (initResolve .unresolvable pz).2 =
        .error (.typeError "Cannot read properties of null (reading 'style')")
    ∧ (initResolve (.resolved el) .absent).1 =
        ["The option panZoomElement is required."]
    ∧ (initResolve (.resolved el) .absent).2 =
        .error (.typeError "Cannot read properties of null (reading 'clientWidth')")
    ∧ (initResolve (.resolved el) (.resolved el)).2 = .ok () := by
  refine ⟨?_, ?_, ?_, rfl, rfl, rfl⟩ <;> cases pz <;> rfl

/-- C8 counterexample: three pointer-down events leave three records in
the cache — `pointerDownEvent` pushes unconditionally, so the cache is
not limited to 2 active pointer records. -/
theorem c8_cache_not_capped_counterexample :
    (pointerDownEvent (pointerDownEvent (pointerDownEvent gestureEmpty evA) evB)
      evC).evCache.length = 3 := by
  rfl

/-- C8 (amended): every pointer-down appends to the cache unconditionally
(so the cache can exceed 2 records); when a pointer-down brings the cache
from 1 to exactly 2 entries, `blockPan` is set and the pinch baseline —
distance and center, with `zoomCache`/`xCache`/`yCache` refreshed on every
pointer-down — is captured; and whenever a pointer removal leaves the
cache below 2 entries, `blockPan` is cleared. -/
theorem c8_cache_and_pinch_baseline (g : GestureState) (ev e0 : PointerEvt)
    (h1 : g.evCache = [e0]) :
    (pointerDownEvent g ev).blockPan = true
    ∧ (pointerDownEvent g ev).evCache = [e0, ev]
    ∧ (pointerDownEvent g ev).pinchDiffCache = getTouchEventsDistanceQ e0 ev
    ∧ (pointerDownEvent g ev).centerCache = getTouchEventsCenter e0 ev
    ∧ (pointerDownEvent g ev).zoomCache = g.core.zoom
    ∧ (pointerDownEvent g ev).xCache = g.core.x
    ∧ (pointerDownEvent g ev).yCache = g.core.y
    ∧ (∀ g' : GestureState, ∀ e : PointerEvt,
        (pointerDownEvent g' e).evCache = g'.evCache ++ [e])
    ∧ (∀ g' : GestureState, ∀ e : PointerEvt,
        (spliceFirst g'.evCache e.pointerId).length < 2 →
          (pointerUpEvent g' e).blockPan = false) := by
  refine ⟨?_, ?_, ?_, ?_, ?_, ?_, ?_, ?_, ?_⟩
  · unfold pointerDownEvent
    rw [h1]
    rfl
  · unfold pointerDownEvent
    rw [h1]
    rfl
  · unfold pointerDownEvent
    rw [h1]
    rfl
  · unfold pointerDownEvent
    rw [h1]
    rfl
  · unfold pointerDownEvent
    rw [h1]
    rfl
  · unfold pointerDownEvent
    rw [h1]
    rfl
  · unfold pointerDownEvent
    rw [h1]
    rfl
  · intro g' e
    simp only [pointerDownEvent]
    split <;> simp_all
  · intro g' e h
    unfold pointerUpEvent
    rw [if_pos h]

theorem c8_cache_and_pinch_baseline_witness :
    gestureOne.evCache = [evA]
    ∧ ((pointerDownEvent gestureOne evB).blockPan = true
      ∧ (pointerDownEvent gestureOne evB).evCache = [evA, evB]
      ∧ (pointerDownEvent gestureOne evB).pinchDiffCache =
          getTouchEventsDistanceQ evA evB
      ∧ (pointerDownEvent gestureOne evB).centerCache = getTouchEventsCenter evA evB
      ∧ (pointerDownEvent gestureOne evB).zoomCache = gestureOne.core.zoom
      ∧ (pointerDownEvent gestureOne evB).xCache = gestureOne.core.x
      ∧ (pointerDownEvent gestureOne evB).yCache = gestureOne.core.y
      ∧ (∀ g' : GestureState, ∀ e : PointerEvt,
          (pointerDownEvent g' e).evCache = g'.evCache ++ [e])
      ∧ (∀ g' : GestureState, ∀ e : PointerEvt,
          (spliceFirst g'.evCache e.pointerId).length < 2 →
            (pointerUpEvent g' e).blockPan = false)) :=
  ⟨rfl, c8_cache_and_pinch_baseline gestureOne evB evA rfl⟩

end DomPanZoom
